import Mathlib

/-!
Verification of the quota-enforcement and generation-request lifecycle of the
Vibra-AI repository, as a shallow embedding in Lean 4.

The embedding follows the source files:
  - src/backend/routes/generate.js   (image-to-image route, retry route)
  - src/unnamed/part_015             (Quota mongoose model and statics)
  - src/unnamed/part_014             (Generation mongoose model, pre-save hook)
  - src/unnamed/part_018             (GET /quota route)
  - src/backend/services/geminiService.js (provider boundary; the route
    swallows every error it throws, so the provider is modelled as an oracle)

The Quota collection carries a unique compound index on (userId, date)
(part_015 line 41), so the store is modelled as a map keyed by
(userId, day).  Days and timestamps are abstract natural numbers.
-/

namespace VibraAI

/-! ## Basic data -/

inductive Tier where
  | free
  | paid
deriving DecidableEq, Repr

inductive GenStatus where
  | processing
  | completed
  | failed
deriving DecidableEq, Repr, BEq

/-! ## String utilities

JavaScript string operations used by the route, modelled over `List Char`:
`String.prototype.replace` with a global case-insensitive regex, with a
global case-sensitive regex, and with a plain string pattern (first
occurrence only), `String.prototype.includes`, `trim`, `toLowerCase` and
`startsWith`. -/

def charEqCI (a b : Char) : Bool := a.toLower == b.toLower

def charEqCS (a b : Char) : Bool := a == b

/-- If the pattern matches a prefix of the text (under the given character
equality), return the remaining text after the match. -/
def matchRest (eqc : Char → Char → Bool) : List Char → List Char → Option (List Char)
  | [], s => some s
  | _ :: _, [] => none
  | p :: ps, c :: cs => if eqc p c then matchRest eqc ps cs else none

/-- Leftmost, non-overlapping global replacement, as a JS regex replace with
the g flag; replacements are not rescanned.  Fuel bounds the scan; the
callers pass the text length, which suffices for nonempty patterns. -/
def replaceAllAux (eqc : Char → Char → Bool) (pat rep : List Char) : Nat → List Char → List Char
  | 0, s => s
  | _ + 1, [] => []
  | fuel + 1, c :: cs =>
    match matchRest eqc pat (c :: cs) with
    | some rest => rep ++ replaceAllAux eqc pat rep fuel rest
    | none => c :: replaceAllAux eqc pat rep fuel cs

/-- JS s.replace(/pat/gi, rep): global, case-insensitive. -/
def replaceAllCI (s pat rep : String) : String :=
  ⟨replaceAllAux charEqCI pat.toList rep.toList s.toList.length s.toList⟩

/-- JS s.replace(/pat/g, rep): global, case-sensitive. -/
def replaceAllCS (s pat rep : String) : String :=
  ⟨replaceAllAux charEqCS pat.toList rep.toList s.toList.length s.toList⟩

def replaceFirstAux (pat rep : List Char) : List Char → List Char
  | [] => []
  | c :: cs =>
    match matchRest charEqCS pat (c :: cs) with
    | some rest => rep ++ rest
    | none => c :: replaceFirstAux pat rep cs

/-- JS s.replace(pat, rep) with a plain string pattern: first occurrence only. -/
def replaceFirstCS (s pat rep : String) : String :=
  ⟨replaceFirstAux pat.toList rep.toList s.toList⟩

def containsAux (pat : List Char) : List Char → Bool
  | [] => (matchRest charEqCS pat []).isSome
  | c :: cs => (matchRest charEqCS pat (c :: cs)).isSome || containsAux pat cs

/-- JS s.includes(pat), also /pat/.test(s) for a literal pattern. -/
def strContainsSub (s pat : String) : Bool := containsAux pat.toList s.toList

/-- JS s.startsWith(pat). -/
def strStartsWith (s pat : String) : Bool := (matchRest charEqCS pat.toList s.toList).isSome

/-- JS s.toLowerCase() (ASCII letters suffice here). -/
def lowerStr (s : String) : String := ⟨s.toList.map Char.toLower⟩

/-- JS s.trim(). -/
def strTrim (s : String) : String :=
  ⟨((s.toList.dropWhile Char.isWhitespace).reverse.dropWhile Char.isWhitespace).reverse⟩

/-- JS a || b on strings: the empty string is falsy. -/
def jsOr (a b : String) : String := if a = "" then b else a

/-! ## Prompt resolution (generate.js lines 236-293) -/

structure PresetData where
  name : String
  category : String
  main_prompt : String
deriving DecidableEq, Repr

/-- Outcome of the preset catalog lookup performed inside the route's try
block (promptMatcher.getAllPrompts plus the FALLBACK_PRESETS table): the
preset was found, not found, or the lookup threw. -/
inductive PresetLookup where
  | found (pd : PresetData)
  | notFound
  | errorThrown
deriving DecidableEq, Repr

/-- Final prompt construction of generate.js lines 236-293.  Returns
(finalPrompt, normalizedPreset). -/
def buildFinalPrompt (prompt : String) (preset : Option String)
    (lookup : PresetLookup) (uploadedImageUrl : String) : String × String :=
  match preset with
  | none => (prompt ++ ", reference image: " ++ uploadedImageUrl, "custom")
  | some p =>
    if p = "" then
      (prompt ++ ", reference image: " ++ uploadedImageUrl, "custom")
    else
      match lookup with
      | .errorThrown => (prompt ++ ", reference image: " ++ uploadedImageUrl, p)
      | .notFound => (prompt ++ ", reference image: " ++ uploadedImageUrl, p)
      | .found pd =>
        let normalizedPreset := jsOr pd.name (jsOr pd.category p)
        let base0 := pd.main_prompt
        let base1 := replaceAllCI base0 "{image}" uploadedImageUrl
        let base2 := replaceAllCI base1 "{image_url}" uploadedImageUrl
        let base3 := replaceAllCI base2 "{image_path}" uploadedImageUrl
        let base4 := replaceAllCS base3 "[IMAGE]" uploadedImageUrl
        let base5 :=
          if strContainsSub base4 "{prompt}" then replaceFirstCS base4 "{prompt}" prompt
          else base4
        let base6 :=
          if ¬ strContainsSub base5 uploadedImageUrl then
            strTrim (base5 ++ ", reference image: " ++ uploadedImageUrl)
          else base5
        let base7 :=
          if ¬ strContainsSub pd.main_prompt "{prompt}" ∧ strTrim prompt ≠ "" then
            base6 ++ ", " ++ prompt
          else base6
        (base7, normalizedPreset)

/-! ## Quota model (src/unnamed/part_015)

The mongoose Quota collection has a unique compound index on
(userId, date), so it is modelled as a map keyed by (userId, day) plus a
fresh-id counter for created records. -/

structure QuotaRec where
  id : Nat
  userId : Nat
  day : Nat
  generationsUsed : Nat
  generationsLimit : Nat
deriving DecidableEq, Repr

structure QuotaStore where
  findQ : Nat → Nat → Option QuotaRec
  nextId : Nat

/-- Document save: writes the record at its (userId, day) key, as enforced
by the unique compound index. -/
def writeQ (s : QuotaStore) (r : QuotaRec) : QuotaStore :=
  { s with findQ := fun u d => if u = r.userId ∧ d = r.day then some r else s.findQ u d }

def emptyStore : QuotaStore := { findQ := fun _ _ => none, nextId := 0 }

/-- The two daily-limit environment variables (PAID_TIER_DAILY_LIMIT,
FREE_TIER_DAILY_LIMIT), already passed through parseInt; none models an
unset or non-numeric value. -/
structure LimitsEnv where
  paidLimit : Option Nat
  freeLimit : Option Nat
deriving DecidableEq, Repr

/-- JS parseInt(env) || d : an unset, non-numeric or zero value falls back
to the default. -/
def jsNumOr (v : Option Nat) (d : Nat) : Nat :=
  match v with
  | some n => if n = 0 then d else n
  | none => d

/-- Tier-derived daily limit of part_015 lines 69-71. -/
def tierLimit (envL : LimitsEnv) (userTier : Tier) : Nat :=
  match userTier with
  | .paid => jsNumOr envL.paidLimit 50
  | .free => jsNumOr envL.freeLimit 5

/-- quotaSchema.statics.getTodayQuota (part_015 lines 64-89).  The userTier
parameter defaults to free exactly as in the source. -/
def getTodayQuota (envL : LimitsEnv) (s : QuotaStore) (userId today : Nat)
    (userTier : Tier := .free) : QuotaRec × QuotaStore :=
  let limit := tierLimit envL userTier
  match s.findQ userId today with
  | none =>
    let q : QuotaRec :=
      { id := s.nextId, userId := userId, day := today,
        generationsUsed := 0, generationsLimit := limit }
    (q, { writeQ s q with nextId := s.nextId + 1 })
  | some q =>
    if q.generationsLimit ≠ limit then
      let q2 := { q with generationsLimit := limit }
      (q2, writeQ s q2)
    else
      (q, s)

/-- quotaSchema.statics.canUserGenerate (part_015 lines 92-95). -/
def canUserGenerate (envL : LimitsEnv) (s : QuotaStore) (userId today : Nat)
    (userTier : Tier := .free) : Bool × QuotaStore :=
  let r := getTodayQuota envL s userId today userTier
  (r.1.generationsUsed < r.1.generationsLimit, r.2)

/-- quotaSchema.statics.incrementUsage (part_015 lines 98-109): a
read-then-check-then-write pair over the document snapshot. -/
def incrementUsage (envL : LimitsEnv) (s : QuotaStore) (userId today : Nat)
    (userTier : Tier := .free) : Except String QuotaRec × QuotaStore :=
  let r := getTodayQuota envL s userId today userTier
  let q := r.1
  if q.generationsUsed ≥ q.generationsLimit then
    (.error "Daily generation limit exceeded", r.2)
  else
    let q2 := { q with generationsUsed := q.generationsUsed + 1 }
    (.ok q2, writeQ r.2 q2)

/-! ## Generation model (src/unnamed/part_014) -/

structure GenRec where
  userId : Nat
  originalImageUrl : Option String
  generatedImageUrl : Option String
  presetUsed : String
  prompt : String
  status : GenStatus
  errorMessage : Option String
  processingStartTime : Nat
  processingEndTime : Option Nat
  processingTime : Option Int
deriving DecidableEq, Repr

/-- JS falsiness of metadata.processingTime: absent or zero. -/
def processingTimeFalsy (t : Option Int) : Bool :=
  match t with
  | none => true
  | some n => n == 0

/-- The pre-save middleware of part_014 lines 146-159.  statusModified is
mongoose isModified('status'): for an existing document, true when the
assigned status differs from the stored one; for a new document, true. -/
def preSaveGeneration (statusModified : Bool) (now : Nat) (g : GenRec) : GenRec :=
  if statusModified ∧ (g.status = .completed ∨ g.status = .failed) then
    let g1 :=
      if g.processingEndTime = none then { g with processingEndTime := some now } else g
    let duration : Int := Int.ofNat (g1.processingEndTime.getD now) - Int.ofNat g1.processingStartTime
    if processingTimeFalsy g1.processingTime then
      { g1 with processingTime := some duration }
    else g1
  else g

/-- generationSchema.methods.markCompleted (part_014 lines 211-217),
followed by the save (and hence the pre-save hook). -/
def markCompleted (now : Nat) (url : String) (g : GenRec) : GenRec :=
  preSaveGeneration (g.status != .completed) now
    { g with generatedImageUrl := some url, status := .completed, processingEndTime := some now }

/-- generationSchema.methods.markFailed (part_014 lines 220-225), followed
by the save. -/
def markFailed (now : Nat) (msg : String) (g : GenRec) : GenRec :=
  preSaveGeneration (g.status != .failed) now
    { g with status := .failed, errorMessage := some msg, processingEndTime := some now }

/-- The retry route's reset (generate.js lines 501-505): status back to
processing, errorMessage cleared, generatedImageUrl nulled, then save. -/
def retryResetSave (now : Nat) (g : GenRec) : GenRec :=
  preSaveGeneration (g.status != .processing) now
    { g with status := .processing, errorMessage := none, generatedImageUrl := none }

/-- The generation record the image-to-image route constructs and saves
(generate.js lines 362-372): created directly with status completed; for a
new document isModified('status') holds, so the pre-save hook runs. -/
def newCompletedGeneration (now : Nat) (uid : Nat) (orig gen : String)
    (presetUsed prompt : String) : GenRec :=
  preSaveGeneration true now
    { userId := uid, originalImageUrl := some orig, generatedImageUrl := some gen,
      presetUsed := presetUsed, prompt := prompt, status := .completed,
      errorMessage := none, processingStartTime := now,
      processingEndTime := none, processingTime := none }

/-! ## Image-to-image route (generate.js lines 154-433)

The provider boundary (GeminiService.generateImageFromImage) and the
preset-catalog lookup are external collaborators and are modelled as
oracles in a RouteEnv.  The route swallows every provider exception in its
inner catch, so only the shape of the outcome matters, not the error kind. -/

structure UserRec where
  uid : Nat
  tier : Tier
deriving DecidableEq, Repr

structure UploadedFile where
  filename : String
deriving DecidableEq, Repr

structure GenRequest where
  prompt : String
  preset : Option String
  file : Option UploadedFile
  urlBase : String
deriving DecidableEq, Repr

/-- Error taxonomy of geminiService.js: the typed messages rethrown by its
catch blocks (API key, provider quota, safety) plus everything else. -/
inductive ProviderErrorKind where
  | auth
  | apiQuota
  | safety
  | transientInfra
  | other
deriving DecidableEq, Repr

/-- Outcome of the awaited generateImageFromImage call. -/
inductive ProviderOutcome where
  | ok (imageUrl : String)
  | invalidResult
  | thrown (kind : ProviderErrorKind)
deriving DecidableEq, Repr

structure RouteEnv where
  geminiAvailable : Bool
  providerOutcome : ProviderOutcome
  presetLookup : PresetLookup
  genSaveFails : Bool
deriving DecidableEq, Repr

inductive RouteEvent where
  | quotaRead
  | quotaCreateWrite
  | providerCall
  | quotaIncrementWrite
  | generationWrite
  | respondEv
deriving DecidableEq, Repr

inductive RouteResponse where
  | badRequest (msg : String)
  | notFound
  | quotaExceeded
  | badGateway
  | ok (echoedInput : Bool) (generationsUsed generationsLimit : Nat)
deriving DecidableEq, Repr

structure RouteResult where
  response : RouteResponse
  store : QuotaStore
  savedGeneration : Option GenRec
  events : List RouteEvent

/-- The via.placeholder.com test of generate.js line 332 (case-insensitive,
anchored at the start). -/
def isViaPlaceholder (u : String) : Bool :=
  strStartsWith (lowerStr u) "http://via.placeholder.com" ||
  strStartsWith (lowerStr u) "https://via.placeholder.com"

/-- Outcome of generate.js lines 309-343: either an imageUrl to continue
with (and whether the provider was actually called), or the 502 early
return for an invalid service response. -/
inductive ProviderStep where
  | image (url : String) (called : Bool)
  | gatewayError
deriving DecidableEq, Repr

def runProvider (env : RouteEnv) (originalImageUrl : String) : ProviderStep :=
  if ¬ env.geminiAvailable then
    ProviderStep.image originalImageUrl false
  else
    match env.providerOutcome with
    | .invalidResult => ProviderStep.gatewayError
    | .ok u =>
      ProviderStep.image (if isViaPlaceholder u then originalImageUrl else u) true
    | .thrown _ => ProviderStep.image originalImageUrl true

/-- Continuation of the image-to-image route after the quota lookup
(generate.js lines 222-398): the used-vs-limit check, prompt resolution,
the provider call, the quota increment, the generation record write, and
the response.  quota, s1 and ev1 are the looked-up or freshly created
quota record, the store after the lookup, and the events so far. -/
def imageToImageAfterQuota (env : RouteEnv) (req : GenRequest) (user : UserRec)
    (file : UploadedFile) (quota : QuotaRec) (s1 : QuotaStore) (ev1 : List RouteEvent)
    (now : Nat) : RouteResult :=
  if quota.generationsUsed ≥ quota.generationsLimit then
    ⟨.quotaExceeded, s1, none, ev1⟩
  else
    let uploadedImageUrl := req.urlBase ++ "/uploads/" ++ file.filename
    let resolved := buildFinalPrompt req.prompt req.preset env.presetLookup uploadedImageUrl
    let originalImageUrl := req.urlBase ++ "/uploads/" ++ file.filename
    match runProvider env originalImageUrl with
    | .gatewayError => ⟨.badGateway, s1, none, ev1 ++ [.providerCall]⟩
    | .image imageUrl called =>
      let ev2 := if called then ev1 ++ [.providerCall] else ev1
      let quota2 := { quota with generationsUsed := quota.generationsUsed + 1 }
      let s2 := writeQ s1 quota2
      let echoedInput := decide (imageUrl = originalImageUrl)
      let savedGen : Option GenRec :=
        if env.genSaveFails then none
        else some (newCompletedGeneration now user.uid originalImageUrl imageUrl
          resolved.2 resolved.1)
      ⟨.ok echoedInput quota2.generationsUsed quota2.generationsLimit,
        s2, savedGen,
        (ev2 ++ [.quotaIncrementWrite]) ++ [.generationWrite] ++ [.respondEv]⟩

/-- POST /api/generate/image-to-image (generate.js lines 154-433), from the
first validation check to the response.  findUser is the result of
User.findById; s is the quota store; today and now are the day key and the
current timestamp. -/
def imageToImageRoute (env : RouteEnv) (req : GenRequest) (findUser : Option UserRec)
    (s : QuotaStore) (today now : Nat) : RouteResult :=
  if strTrim req.prompt = "" then
    ⟨.badRequest "Prompt is required and cannot be empty", s, none, []⟩
  else
    match req.file with
    | none => ⟨.badRequest "Image file is required for image-to-image generation", s, none, []⟩
    | some file =>
      if req.prompt.length > 1000 then
        ⟨.badRequest "Prompt must be less than 1000 characters", s, none, []⟩
      else
        match findUser with
        | none => ⟨.notFound, s, none, []⟩
        | some user =>
          match s.findQ user.uid today with
          | some q =>
            imageToImageAfterQuota env req user file q s [.quotaRead] now
          | none =>
            let q : QuotaRec :=
              { id := s.nextId, userId := user.uid, day := today,
                generationsUsed := 0,
                generationsLimit := if user.tier = .paid then 50 else 5 }
            imageToImageAfterQuota env req user file q
              { writeQ s q with nextId := s.nextId + 1 }
              [.quotaRead, .quotaCreateWrite] now

/-! ## Retry route (generate.js lines 469-515) and GET /quota (part_018 lines 13-31) -/

inductive RetryResponse where
  | notFound
  | badRequestNotFailed
  | quotaExceeded (used limit : Nat)
  | initiated
deriving DecidableEq, Repr

structure RetryResult where
  response : RetryResponse
  store : QuotaStore
  savedGeneration : Option GenRec

/-- POST /api/generate/retry/:id.  generation is the result of
Generation.findOne for this id and user.  Both quota calls pass no tier
argument, exactly as in the source. -/
def retryRoute (envL : LimitsEnv) (generation : Option GenRec) (s : QuotaStore)
    (uid today now : Nat) : RetryResult :=
  match generation with
  | none => ⟨.notFound, s, none⟩
  | some g =>
    if g.status ≠ .failed then ⟨.badRequestNotFailed, s, some g⟩
    else
      let can := canUserGenerate envL s uid today
      if ¬ can.1 then
        let r := getTodayQuota envL can.2 uid today
        ⟨.quotaExceeded r.1.generationsUsed r.1.generationsLimit, r.2, some g⟩
      else
        ⟨.initiated, can.2, some (retryResetSave now g)⟩

/-- GET /api/user/quota (part_018 lines 13-31): calls Quota.getTodayQuota
with no tier argument. -/
def getQuotaRoute (envL : LimitsEnv) (s : QuotaStore) (uid today : Nat) :
    QuotaRec × QuotaStore :=
  getTodayQuota envL s uid today

/-! ## Interleaving model of concurrent incrementUsage calls

Each call suspends at its two awaits: the getTodayQuota read and the
document save.  A call is therefore a two-phase process — read the
document snapshot, then check and write snapshot.used + 1 — and a
schedule is the list of call indices in the order their phases run. -/

inductive CallPhase where
  | ready
  | readDone (snapshot : QuotaRec)
  | done (succeeded : Bool)
deriving DecidableEq, Repr

structure ConcState where
  store : QuotaStore
  calls : List CallPhase

/-- Run the next pending phase of call i, following incrementUsage
(part_015 lines 98-109): the check and the increment act on the snapshot
the call itself read, not on the current store contents. -/
def stepCall (envL : LimitsEnv) (userId today : Nat) (userTier : Tier)
    (st : ConcState) (i : Nat) : ConcState :=
  match st.calls.get? i with
  | none => st
  | some .ready =>
    let r := getTodayQuota envL st.store userId today userTier
    { store := r.2, calls := st.calls.set i (.readDone r.1) }
  | some (.readDone q) =>
    if q.generationsUsed ≥ q.generationsLimit then
      { st with calls := st.calls.set i (.done false) }
    else
      { store := writeQ st.store { q with generationsUsed := q.generationsUsed + 1 },
        calls := st.calls.set i (.done true) }
  | some (.done _) => st

def runSchedule (envL : LimitsEnv) (userId today : Nat) (userTier : Tier) :
    List Nat → ConcState → ConcState
  | [], st => st
  | i :: rest, st => runSchedule envL userId today userTier rest (stepCall envL userId today userTier st i)

def successCount (st : ConcState) : Nat :=
  st.calls.countP (fun c => match c with | .done true => true | _ => false)

/-! ## Auxiliary predicates for the theorems -/

/-- True when event a occurs strictly before the first occurrence of event
b in the trace (and b does occur after it). -/
def occursBefore (a b : RouteEvent) : List RouteEvent → Bool
  | [] => false
  | e :: rest =>
    if e = b then false
    else if e = a then rest.contains b
    else occursBefore a b rest

/-- Store sanity matching the mongoose schema: a record found at
(userId, day) carries those keys, and every stored id is below the
fresh-id counter. -/
def QuotaStoreWF (s : QuotaStore) : Prop :=
  ∀ u d q, s.findQ u d = some q → q.userId = u ∧ q.day = d ∧ q.id < s.nextId

/-! ## Helper lemmas -/

theorem writeQ_findQ (s : QuotaStore) (r : QuotaRec) (u d : Nat) :
    (writeQ s r).findQ u d = if u = r.userId ∧ d = r.day then some r else s.findQ u d := rfl

theorem writeQ_nextId (s : QuotaStore) (r : QuotaRec) : (writeQ s r).nextId = s.nextId := rfl

theorem preSaveGeneration_status (b : Bool) (now : Nat) (g : GenRec) :
    (preSaveGeneration b now g).status = g.status := by
  unfold preSaveGeneration
  split
  · dsimp only
    split <;> split <;> rfl
  · rfl

theorem preSaveGeneration_genUrl (b : Bool) (now : Nat) (g : GenRec) :
    (preSaveGeneration b now g).generatedImageUrl = g.generatedImageUrl := by
  unfold preSaveGeneration
  split
  · dsimp only
    split <;> split <;> rfl
  · rfl

theorem preSaveGeneration_endTime_of_some (b : Bool) (now t : Nat) (g : GenRec)
    (h : g.processingEndTime = some t) :
    (preSaveGeneration b now g).processingEndTime = some t := by
  unfold preSaveGeneration
  split
  · dsimp only
    rw [h]
    simp
    split <;> simp [h]
  · exact h

theorem preSaveGeneration_endTime_processing (b : Bool) (now : Nat) (g : GenRec)
    (h : g.status = .processing) :
    (preSaveGeneration b now g).processingEndTime = g.processingEndTime := by
  unfold preSaveGeneration
  split
  · rename_i hcond
    rw [h] at hcond
    simp at hcond
  · rfl

theorem newCompletedGeneration_status (now uid : Nat) (o g p f : String) :
    (newCompletedGeneration now uid o g p f).status = .completed := by
  unfold newCompletedGeneration
  exact preSaveGeneration_status true now _

theorem newCompletedGeneration_genUrl (now uid : Nat) (o g p f : String) :
    (newCompletedGeneration now uid o g p f).generatedImageUrl = some g := by
  unfold newCompletedGeneration
  rw [preSaveGeneration_genUrl]

theorem newCompletedGeneration_endTime (now uid : Nat) (o g p f : String) :
    (newCompletedGeneration now uid o g p f).processingEndTime = some now := by
  rfl

theorem retryResetSave_status (now : Nat) (g : GenRec) :
    (retryResetSave now g).status = .processing := by
  unfold retryResetSave
  rw [preSaveGeneration_status]

theorem retryResetSave_endTime (now : Nat) (g : GenRec) :
    (retryResetSave now g).processingEndTime = g.processingEndTime := by
  unfold retryResetSave
  rw [preSaveGeneration_endTime_processing]
  rfl

theorem afterQuota_increment_order (env : RouteEnv) (req : GenRequest) (user : UserRec)
    (file : UploadedFile) (quota : QuotaRec) (s1 : QuotaStore) (ev1 : List RouteEvent)
    (now : Nat)
    (hev : ev1 = [RouteEvent.quotaRead] ∨
      ev1 = [RouteEvent.quotaRead, RouteEvent.quotaCreateWrite]) :
    RouteEvent.generationWrite ∈
      (imageToImageAfterQuota env req user file quota s1 ev1 now).events →
    occursBefore .quotaIncrementWrite .generationWrite
      (imageToImageAfterQuota env req user file quota s1 ev1 now).events = true := by
  rcases hev with h | h <;>
  · subst h
    unfold imageToImageAfterQuota
    split
    · intro hmem; simp at hmem
    · dsimp only
      cases hrp : runProvider env (req.urlBase ++ "/uploads/" ++ file.filename) with
      | gatewayError => intro hmem; simp [hrp] at hmem
      | image url called =>
        cases called <;>
        · intro _
          simp [hrp]
          decide

theorem afterQuota_saved_completed (env : RouteEnv) (req : GenRequest) (user : UserRec)
    (file : UploadedFile) (quota : QuotaRec) (s1 : QuotaStore) (ev1 : List RouteEvent)
    (now : Nat) (g : GenRec)
    (h : (imageToImageAfterQuota env req user file quota s1 ev1 now).savedGeneration = some g) :
    g.status = .completed := by
  revert h
  unfold imageToImageAfterQuota
  split
  · intro h; simp at h
  · dsimp only
    cases hrp : runProvider env (req.urlBase ++ "/uploads/" ++ file.filename) with
    | gatewayError => intro h; simp [hrp] at h
    | image url called =>
      intro h
      by_cases hs : env.genSaveFails = true
      · simp [hrp, hs] at h
      · simp [hrp, hs] at h
        subst h
        exact newCompletedGeneration_status _ _ _ _ _ _

theorem route_saved_completed (env : RouteEnv) (req : GenRequest)
    (findUser : Option UserRec) (s : QuotaStore) (today now : Nat) (g : GenRec)
    (h : (imageToImageRoute env req findUser s today now).savedGeneration = some g) :
    g.status = .completed := by
  revert h
  unfold imageToImageRoute
  split
  · intro h; simp at h
  · split
    · intro h; simp at h
    · split
      · intro h; simp at h
      · split
        · intro h; simp at h
        · split
          · exact afterQuota_saved_completed _ _ _ _ _ _ _ _ _
          · exact afterQuota_saved_completed _ _ _ _ _ _ _ _ _

/-! ## Claim C1 (echo handling) -/

/-- C1, counterexample: at a concrete echoing run (the provider returns
exactly the input URL), the route responds success with echoedInput true,
records the Generation as completed, and increments generationsUsed from 0
to 1 — contradicting the claim that an echo yields a distinct EchoedOutput
error, a failed Generation, and no quota charge. -/
theorem echo_claim_counterexample :
    (RouteEnv.mk true (.ok "http://h/uploads/f.jpg") .notFound false).providerOutcome =
      .ok ("http://h" ++ "/uploads/" ++ "f.jpg") ∧
    (imageToImageRoute ⟨true, .ok "http://h/uploads/f.jpg", .notFound, false⟩
        ⟨"hi", none, some ⟨"f.jpg"⟩, "http://h"⟩ (some ⟨1, .free⟩)
        (writeQ { emptyStore with nextId := 1 }
          { id := 0, userId := 1, day := 0, generationsUsed := 0, generationsLimit := 5 })
        0 100).response = .ok true 1 5 ∧
    ((imageToImageRoute ⟨true, .ok "http://h/uploads/f.jpg", .notFound, false⟩
        ⟨"hi", none, some ⟨"f.jpg"⟩, "http://h"⟩ (some ⟨1, .free⟩)
        (writeQ { emptyStore with nextId := 1 }
          { id := 0, userId := 1, day := 0, generationsUsed := 0, generationsLimit := 5 })
        0 100).savedGeneration.map GenRec.status) = some .completed ∧
    (((imageToImageRoute ⟨true, .ok "http://h/uploads/f.jpg", .notFound, false⟩
        ⟨"hi", none, some ⟨"f.jpg"⟩, "http://h"⟩ (some ⟨1, .free⟩)
        (writeQ { emptyStore with nextId := 1 }
          { id := 0, userId := 1, day := 0, generationsUsed := 0, generationsLimit := 5 })
        0 100).store.findQ 1 0).map QuotaRec.generationsUsed) = some 1 :=
  ⟨rfl, rfl, rfl, rfl⟩

/-- C1, amended: for every image-to-image request passing validation and
the quota check in which the provider output URL equals the input URL, the
route responds success with an echoedInput flag set, records the
Generation as completed (when the record save succeeds), and increments
generationsUsed by 1. -/
theorem echo_responds_success_and_charges (env : RouteEnv) (req : GenRequest)
    (file : UploadedFile) (user : UserRec) (s : QuotaStore) (q : QuotaRec) (today now : Nat)
    (hprompt : strTrim req.prompt ≠ "") (hfile : req.file = some file)
    (hlen : req.prompt.length ≤ 1000) (hq : s.findQ user.uid today = some q)
    (hkey1 : q.userId = user.uid) (hkey2 : q.day = today)
    (hok : q.generationsUsed < q.generationsLimit)
    (hgem : env.geminiAvailable = true)
    (hecho : env.providerOutcome = .ok (req.urlBase ++ "/uploads/" ++ file.filename))
    (hsave : env.genSaveFails = false) :
    (imageToImageRoute env req (some user) s today now).response =
      .ok true (q.generationsUsed + 1) q.generationsLimit ∧
    ((imageToImageRoute env req (some user) s today now).savedGeneration.map GenRec.status) =
      some .completed ∧
    ((imageToImageRoute env req (some user) s today now).store.findQ user.uid today).map
      QuotaRec.generationsUsed = some (q.generationsUsed + 1) := by
  simp [imageToImageRoute, imageToImageAfterQuota, runProvider, hprompt, hfile, hq, hgem,
    hecho, hsave, Nat.not_lt.mpr hlen, Nat.not_le.mpr hok, writeQ, hkey1, hkey2,
    newCompletedGeneration_status]

/-- Witness for the amended C1 theorem at a concrete echoing request. -/
theorem echo_responds_success_and_charges_witness :
    strTrim "hi" ≠ "" ∧
    (imageToImageRoute ⟨true, .ok "http://h/uploads/f.jpg", .notFound, false⟩
        ⟨"hi", none, some ⟨"f.jpg"⟩, "http://h"⟩ (some ⟨1, .free⟩)
        (writeQ { emptyStore with nextId := 1 }
          { id := 0, userId := 1, day := 0, generationsUsed := 0, generationsLimit := 5 })
        0 100).response = .ok true (0 + 1) 5 :=
  ⟨by decide,
    (echo_responds_success_and_charges
      ⟨true, .ok "http://h/uploads/f.jpg", .notFound, false⟩
      ⟨"hi", none, some ⟨"f.jpg"⟩, "http://h"⟩ ⟨"f.jpg"⟩ ⟨1, .free⟩
      (writeQ { emptyStore with nextId := 1 }
        { id := 0, userId := 1, day := 0, generationsUsed := 0, generationsLimit := 5 })
      { id := 0, userId := 1, day := 0, generationsUsed := 0, generationsLimit := 5 }
      0 100 (by decide) rfl (by decide) rfl rfl rfl (by decide) rfl rfl rfl).1⟩

/-! ## Claim C2 (provider failure handling) -/

/-- C2, counterexample: at a concrete run where the provider throws a
safety rejection, the route falls back to the original image URL, records
the Generation as completed (not failed), and increments generationsUsed
from 0 to 1 — contradicting the claim that an auth/safety rejection is
recorded as failed with quota unchanged. -/
theorem provider_rejection_claim_counterexample :
    (imageToImageRoute ⟨true, .thrown .safety, .notFound, false⟩
        ⟨"hi", none, some ⟨"f.jpg"⟩, "http://h"⟩ (some ⟨1, .free⟩)
        (writeQ { emptyStore with nextId := 1 }
          { id := 0, userId := 1, day := 0, generationsUsed := 0, generationsLimit := 5 })
        0 100).savedGeneration.map GenRec.status = some .completed ∧
    ((imageToImageRoute ⟨true, .thrown .safety, .notFound, false⟩
        ⟨"hi", none, some ⟨"f.jpg"⟩, "http://h"⟩ (some ⟨1, .free⟩)
        (writeQ { emptyStore with nextId := 1 }
          { id := 0, userId := 1, day := 0, generationsUsed := 0, generationsLimit := 5 })
        0 100).store.findQ 1 0).map QuotaRec.generationsUsed = some 1 ∧
    (imageToImageRoute ⟨true, .thrown .safety, .notFound, false⟩
        ⟨"hi", none, some ⟨"f.jpg"⟩, "http://h"⟩ (some ⟨1, .free⟩)
        (writeQ { emptyStore with nextId := 1 }
          { id := 0, userId := 1, day := 0, generationsUsed := 0, generationsLimit := 5 })
        0 100).response = .ok true 1 5 :=
  ⟨rfl, rfl, rfl⟩

/-- C2, amended: every provider failure, of any kind (transient as well as
auth or safety), makes the route fall back to the original uploaded image
URL as the result, record the Generation as completed, and increment
generationsUsed by 1; no provider failure is recorded as a failed
Generation and none leaves the quota unchanged. -/
theorem provider_error_fallback_charges (env : RouteEnv) (req : GenRequest)
    (file : UploadedFile) (user : UserRec) (s : QuotaStore) (q : QuotaRec) (today now : Nat)
    (kind : ProviderErrorKind)
    (hprompt : strTrim req.prompt ≠ "") (hfile : req.file = some file)
    (hlen : req.prompt.length ≤ 1000) (hq : s.findQ user.uid today = some q)
    (hkey1 : q.userId = user.uid) (hkey2 : q.day = today)
    (hok : q.generationsUsed < q.generationsLimit)
    (hgem : env.geminiAvailable = true)
    (hthrown : env.providerOutcome = .thrown kind)
    (hsave : env.genSaveFails = false) :
    (imageToImageRoute env req (some user) s today now).response =
      .ok true (q.generationsUsed + 1) q.generationsLimit ∧
    ((imageToImageRoute env req (some user) s today now).savedGeneration.map GenRec.status) =
      some .completed ∧
    ((imageToImageRoute env req (some user) s today now).savedGeneration.bind
      GenRec.generatedImageUrl) = some (req.urlBase ++ "/uploads/" ++ file.filename) ∧
    ((imageToImageRoute env req (some user) s today now).store.findQ user.uid today).map
      QuotaRec.generationsUsed = some (q.generationsUsed + 1) := by
  simp [imageToImageRoute, imageToImageAfterQuota, runProvider, hprompt, hfile, hq, hgem,
    hthrown, hsave, Nat.not_lt.mpr hlen, Nat.not_le.mpr hok, writeQ, hkey1, hkey2,
    newCompletedGeneration_status, newCompletedGeneration_genUrl]

/-- Witness for the amended C2 theorem at a concrete auth rejection. -/
theorem provider_error_fallback_charges_witness :
    strTrim "hi" ≠ "" ∧
    (imageToImageRoute ⟨true, .thrown .auth, .notFound, false⟩
        ⟨"hi", none, some ⟨"f.jpg"⟩, "http://h"⟩ (some ⟨1, .free⟩)
        (writeQ { emptyStore with nextId := 1 }
          { id := 0, userId := 1, day := 0, generationsUsed := 0, generationsLimit := 5 })
        0 100).response = .ok true (0 + 1) 5 :=
  ⟨by decide,
    (provider_error_fallback_charges
      ⟨true, .thrown .auth, .notFound, false⟩
      ⟨"hi", none, some ⟨"f.jpg"⟩, "http://h"⟩ ⟨"f.jpg"⟩ ⟨1, .free⟩
      (writeQ { emptyStore with nextId := 1 }
        { id := 0, userId := 1, day := 0, generationsUsed := 0, generationsLimit := 5 })
      { id := 0, userId := 1, day := 0, generationsUsed := 0, generationsLimit := 5 }
      0 100 .auth (by decide) rfl (by decide) rfl rfl rfl (by decide) rfl rfl rfl).1⟩

/-! ## Claim C3 (increment ordering) -/

/-- C3, counterexample: in a concrete successful run the event trace is
read, provider call, quota increment write, generation write, respond —
the quota increment happens strictly before the Generation record write is
attempted, contradicting the claim that the increment never precedes the
write. -/
theorem increment_order_claim_counterexample :
    (imageToImageRoute ⟨true, .ok "http://h/uploads/out.jpg", .notFound, false⟩
        ⟨"hi", none, some ⟨"f.jpg"⟩, "http://h"⟩ (some ⟨1, .free⟩)
        (writeQ { emptyStore with nextId := 1 }
          { id := 0, userId := 1, day := 0, generationsUsed := 0, generationsLimit := 5 })
        0 100).events =
      [.quotaRead, .providerCall, .quotaIncrementWrite, .generationWrite, .respondEv] ∧
    occursBefore .quotaIncrementWrite .generationWrite
      (imageToImageRoute ⟨true, .ok "http://h/uploads/out.jpg", .notFound, false⟩
        ⟨"hi", none, some ⟨"f.jpg"⟩, "http://h"⟩ (some ⟨1, .free⟩)
        (writeQ { emptyStore with nextId := 1 }
          { id := 0, userId := 1, day := 0, generationsUsed := 0, generationsLimit := 5 })
        0 100).events = true :=
  ⟨rfl, rfl⟩

/-- C3, amended: in every run of the image-to-image route that attempts
the Generation record write, the quota increment write occurs strictly
before it in the event trace; usage is charged before the record write is
attempted, not after. -/
theorem increment_precedes_generation_write (env : RouteEnv) (req : GenRequest)
    (findUser : Option UserRec) (s : QuotaStore) (today now : Nat)
    (h : RouteEvent.generationWrite ∈ (imageToImageRoute env req findUser s today now).events) :
    occursBefore .quotaIncrementWrite .generationWrite
      (imageToImageRoute env req findUser s today now).events = true := by
  revert h
  unfold imageToImageRoute
  split
  · intro h; simp at h
  · split
    · intro h; simp at h
    · split
      · intro h; simp at h
      · split
        · intro h; simp at h
        · split
          · exact afterQuota_increment_order _ _ _ _ _ _ _ _ (Or.inl rfl)
          · exact afterQuota_increment_order _ _ _ _ _ _ _ _ (Or.inr rfl)

/-- Witness for the amended C3 theorem at a concrete successful run. -/
theorem increment_precedes_generation_write_witness :
    RouteEvent.generationWrite ∈
      (imageToImageRoute ⟨true, .ok "http://h/uploads/out2.jpg", .notFound, false⟩
        ⟨"hello", none, some ⟨"g.jpg"⟩, "http://h"⟩ (some ⟨1, .free⟩)
        (writeQ { emptyStore with nextId := 1 }
          { id := 0, userId := 1, day := 0, generationsUsed := 0, generationsLimit := 5 })
        0 100).events ∧
    occursBefore .quotaIncrementWrite .generationWrite
      (imageToImageRoute ⟨true, .ok "http://h/uploads/out2.jpg", .notFound, false⟩
        ⟨"hello", none, some ⟨"g.jpg"⟩, "http://h"⟩ (some ⟨1, .free⟩)
        (writeQ { emptyStore with nextId := 1 }
          { id := 0, userId := 1, day := 0, generationsUsed := 0, generationsLimit := 5 })
        0 100).events = true :=
  ⟨by decide,
    increment_precedes_generation_write
      ⟨true, .ok "http://h/uploads/out2.jpg", .notFound, false⟩
      ⟨"hello", none, some ⟨"g.jpg"⟩, "http://h"⟩ (some ⟨1, .free⟩)
      (writeQ { emptyStore with nextId := 1 }
        { id := 0, userId := 1, day := 0, generationsUsed := 0, generationsLimit := 5 })
      0 100 (by decide)⟩

/-! ## Claim C4 (concurrent incrementUsage) -/

/-- C4: the incrementUsage implementation is a read-then-check-then-write
pair, so under the interleaving in which two concurrent calls for one user
(free tier with daily limit 1, today's quota at used 0) both perform their
read before either writes, both calls succeed — 2 successes with limit 1 —
refuting the at-most-L-successes property; the stored counter itself ends
at 1 because each call writes its own snapshot plus one. -/
theorem incrementUsage_race_two_succeed :
    successCount (runSchedule ⟨none, some 1⟩ 7 0 .free [0, 1, 0, 1]
        ⟨writeQ { emptyStore with nextId := 1 }
            { id := 0, userId := 7, day := 0, generationsUsed := 0, generationsLimit := 1 },
          [.ready, .ready]⟩) = 2 ∧
    (1 : Nat) < 2 ∧
    ((runSchedule ⟨none, some 1⟩ 7 0 .free [0, 1, 0, 1]
        ⟨writeQ { emptyStore with nextId := 1 }
            { id := 0, userId := 7, day := 0, generationsUsed := 0, generationsLimit := 1 },
          [.ready, .ready]⟩).store.findQ 7 0).map QuotaRec.generationsUsed = some 1 :=
  ⟨rfl, by decide, rfl⟩

/-! ## Claim C5 (tier-less quota calls) -/

/-- C5: Quota.getTodayQuota defaults its userTier parameter to free, so
the tier-less call made by the GET /quota route returns today's record
with generationsLimit lowered to the free default 5 and persists that
lowered limit in place (usage and id preserved), and the retry route's
tier-less canUserGenerate check leaves the store's record at limit 5 as
well — even when the stored record carried the paid limit 50. -/
theorem tierless_calls_downgrade_limit (s : QuotaStore) (u d now : Nat) (q : QuotaRec)
    (g : GenRec) (hq : s.findQ u d = some q) (hkey1 : q.userId = u) (hkey2 : q.day = d)
    (hlimit : q.generationsLimit = 50) (hg : g.status = .failed) :
    (getQuotaRoute ⟨none, none⟩ s u d).1.generationsLimit = 5 ∧
    (getQuotaRoute ⟨none, none⟩ s u d).1.generationsUsed = q.generationsUsed ∧
    (getQuotaRoute ⟨none, none⟩ s u d).1.id = q.id ∧
    ((getQuotaRoute ⟨none, none⟩ s u d).2.findQ u d).map QuotaRec.generationsLimit = some 5 ∧
    (((retryRoute ⟨none, none⟩ (some g) s u d now).store.findQ u d).map
      QuotaRec.generationsLimit) = some 5 := by
  refine ⟨?_, ?_, ?_, ?_, ?_⟩
  · simp [getQuotaRoute, getTodayQuota, tierLimit, jsNumOr, hq, hlimit]
  · simp [getQuotaRoute, getTodayQuota, tierLimit, jsNumOr, hq, hlimit]
  · simp [getQuotaRoute, getTodayQuota, tierLimit, jsNumOr, hq, hlimit]
  · simp [getQuotaRoute, getTodayQuota, tierLimit, jsNumOr, hq, hlimit, writeQ, hkey1, hkey2]
  · by_cases hcan : q.generationsUsed < 5
    · simp [retryRoute, canUserGenerate, getTodayQuota, tierLimit, jsNumOr, writeQ, hq, hlimit,
        hkey1, hkey2, hg, Nat.not_le.mpr hcan]
    · simp [retryRoute, canUserGenerate, getTodayQuota, tierLimit, jsNumOr, writeQ, hq, hlimit,
        hkey1, hkey2, hg, Nat.le_of_not_lt hcan, hcan]

/-- Witness for C5 at a concrete paid-tier store record. -/
theorem tierless_calls_downgrade_limit_witness :
    (writeQ { emptyStore with nextId := 1 }
        { id := 0, userId := 2, day := 5, generationsUsed := 3, generationsLimit := 50 }).findQ 2 5 =
      some { id := 0, userId := 2, day := 5, generationsUsed := 3, generationsLimit := 50 } ∧
    (getQuotaRoute ⟨none, none⟩
      (writeQ { emptyStore with nextId := 1 }
        { id := 0, userId := 2, day := 5, generationsUsed := 3, generationsLimit := 50 })
      2 5).1.generationsLimit = 5 :=
  ⟨rfl,
    (tierless_calls_downgrade_limit
      (writeQ { emptyStore with nextId := 1 }
        { id := 0, userId := 2, day := 5, generationsUsed := 3, generationsLimit := 50 })
      2 5 20 { id := 0, userId := 2, day := 5, generationsUsed := 3, generationsLimit := 50 }
      ⟨2, none, none, "custom", "p", .failed, some "boom", 0, some 10, some 10⟩
      rfl rfl rfl rfl rfl).1⟩

/-! ## Claim C6 (processingEndTime iff terminal) -/

/-- C6, counterexample: the retry reset applied to a failed record whose
processingEndTime is set yields a record whose status is processing while
processingEndTime is still set (the pre-save hook only ever sets the
field, it never clears it) — contradicting the claimed iff between a set
processingEndTime and a terminal status. -/
theorem retry_reset_keeps_end_time_counterexample :
    (retryResetSave 20
      ⟨1, none, none, "custom", "p", .failed, some "boom", 0, some 10, some 10⟩).status =
      .processing ∧
    (retryResetSave 20
      ⟨1, none, none, "custom", "p", .failed, some "boom", 0, some 10, some 10⟩).processingEndTime =
      some 10 :=
  ⟨rfl, rfl⟩

/-- C6, amended: processingEndTime is set whenever a save leaves the
status terminal — markCompleted and markFailed set it, and a record
created directly as completed gets it from the pre-save hook — but the
converse direction fails at the retry reset: resetting a record to
processing preserves whatever processingEndTime it had, so a processing
record can carry a set processingEndTime. -/
theorem processing_end_time_terminal_behavior (g : GenRec) (now uid : Nat)
    (url msg o gen p f : String) :
    ((markCompleted now url g).status = .completed ∧
      (markCompleted now url g).processingEndTime = some now) ∧
    ((markFailed now msg g).status = .failed ∧
      (markFailed now msg g).processingEndTime = some now) ∧
    ((newCompletedGeneration now uid o gen p f).status = .completed ∧
      (newCompletedGeneration now uid o gen p f).processingEndTime = some now) ∧
    ((retryResetSave now g).status = .processing ∧
      (retryResetSave now g).processingEndTime = g.processingEndTime) := by
  refine ⟨⟨?_, ?_⟩, ⟨?_, ?_⟩, ⟨?_, ?_⟩, ⟨?_, ?_⟩⟩
  · rw [markCompleted, preSaveGeneration_status]
  · exact preSaveGeneration_endTime_of_some _ _ _ _ rfl
  · rw [markFailed, preSaveGeneration_status]
  · exact preSaveGeneration_endTime_of_some _ _ _ _ rfl
  · exact newCompletedGeneration_status _ _ _ _ _ _
  · exact newCompletedGeneration_endTime _ _ _ _ _ _
  · exact retryResetSave_status _ _
  · exact retryResetSave_endTime _ _

/-! ## Claim C7 (requests resolve to terminal status) -/

/-- C7, counterexample: a concrete retry of a failed generation with quota
available answers "retry initiated" and leaves the stored record at status
processing; the route performs no further generation work, so the record
is not resolved to a terminal status. -/
theorem retry_leaves_processing_counterexample :
    (retryRoute ⟨none, none⟩
      (some ⟨1, none, none, "custom", "p", .failed, some "boom", 0, some 10, some 10⟩)
      (writeQ { emptyStore with nextId := 1 }
        { id := 0, userId := 1, day := 0, generationsUsed := 0, generationsLimit := 5 })
      1 0 20).response = .initiated ∧
    (retryRoute ⟨none, none⟩
      (some ⟨1, none, none, "custom", "p", .failed, some "boom", 0, some 10, some 10⟩)
      (writeQ { emptyStore with nextId := 1 }
        { id := 0, userId := 1, day := 0, generationsUsed := 0, generationsLimit := 5 })
      1 0 20).savedGeneration.map GenRec.status = some .processing :=
  ⟨rfl, rfl⟩

/-- C7, amended: the image-to-image request path resolves every Generation
record it writes to a terminal status (always completed, even on provider
failure, via the fallback), but a successful retry resets the record to
processing and returns without re-invoking generation, leaving the record
non-terminal. -/
theorem request_terminal_retry_processing (env : RouteEnv) (req : GenRequest)
    (findUser : Option UserRec) (s : QuotaStore) (today now : Nat) (g : GenRec)
    (envL : LimitsEnv) (generation : Option GenRec) (s2 : QuotaStore) (uid today2 now2 : Nat)
    (hsaved : (imageToImageRoute env req findUser s today now).savedGeneration = some g) :
    g.status = .completed ∧
    ((retryRoute envL generation s2 uid today2 now2).response = .initiated →
      (retryRoute envL generation s2 uid today2 now2).savedGeneration.map GenRec.status =
        some .processing) := by
  constructor
  · exact route_saved_completed env req findUser s today now g hsaved
  · cases generation with
    | none => intro hr; simp [retryRoute] at hr
    | some g0 =>
      by_cases hf : g0.status = GenStatus.failed
      · by_cases hcan : (canUserGenerate envL s2 uid today2).1 = true
        · intro _
          simp [retryRoute, hf, hcan, retryResetSave_status]
        · intro hr
          simp [retryRoute, hf, hcan] at hr
      · intro hr
        simp [retryRoute, hf] at hr

/-- Witness for the amended C7 theorem at a concrete request and retry. -/
theorem request_terminal_retry_processing_witness :
    (imageToImageRoute ⟨true, .ok "http://h/uploads/out3.jpg", .notFound, false⟩
        ⟨"hey", none, some ⟨"h.jpg"⟩, "http://h"⟩ (some ⟨1, .free⟩)
        (writeQ { emptyStore with nextId := 1 }
          { id := 0, userId := 1, day := 0, generationsUsed := 0, generationsLimit := 5 })
        0 100).savedGeneration =
      some (newCompletedGeneration 100 1 "http://h/uploads/h.jpg" "http://h/uploads/out3.jpg"
        "custom" "hey, reference image: http://h/uploads/h.jpg") ∧
    (newCompletedGeneration 100 1 "http://h/uploads/h.jpg" "http://h/uploads/out3.jpg"
      "custom" "hey, reference image: http://h/uploads/h.jpg").status = .completed :=
  ⟨rfl,
    (request_terminal_retry_processing
      ⟨true, .ok "http://h/uploads/out3.jpg", .notFound, false⟩
      ⟨"hey", none, some ⟨"h.jpg"⟩, "http://h"⟩ (some ⟨1, .free⟩)
      (writeQ { emptyStore with nextId := 1 }
        { id := 0, userId := 1, day := 0, generationsUsed := 0, generationsLimit := 5 })
      0 100
      (newCompletedGeneration 100 1 "http://h/uploads/h.jpg" "http://h/uploads/out3.jpg"
        "custom" "hey, reference image: http://h/uploads/h.jpg")
      ⟨none, none⟩ none emptyStore 1 0 20 rfl).1⟩

/-! ## Claim C8 (idempotent day rollover) -/

/-- C8: two getTodayQuota calls for the same user on the same day return
the same record — the second call returns exactly what the first returned,
and when a record already existed the returned record keeps its id and
usage while its limit is brought to the tier-derived value in place — and
a call for the next day (no record existing yet for it) returns a record
with a distinct id and generationsUsed 0. -/
theorem getTodayQuota_idempotent_rollover (envL : LimitsEnv) (s : QuotaStore)
    (u d : Nat) (tier : Tier) (hwf : QuotaStoreWF s) (hnext : s.findQ u (d + 1) = none) :
    ((getTodayQuota envL (getTodayQuota envL s u d tier).2 u d tier).1 =
      (getTodayQuota envL s u d tier).1) ∧
    (∀ q0, s.findQ u d = some q0 →
      (getTodayQuota envL s u d tier).1.id = q0.id ∧
      (getTodayQuota envL s u d tier).1.generationsUsed = q0.generationsUsed ∧
      (getTodayQuota envL s u d tier).1.generationsLimit = tierLimit envL tier) ∧
    ((getTodayQuota envL (getTodayQuota envL (getTodayQuota envL s u d tier).2 u d tier).2
        u (d + 1) tier).1.id ≠ (getTodayQuota envL s u d tier).1.id) ∧
    ((getTodayQuota envL (getTodayQuota envL (getTodayQuota envL s u d tier).2 u d tier).2
        u (d + 1) tier).1.generationsUsed = 0) := by
  have hd1 : d + 1 ≠ d := Nat.succ_ne_self d
  cases hfind : s.findQ u d with
  | none =>
    refine ⟨?_, ?_, ?_, ?_⟩ <;>
      simp [getTodayQuota, hfind, writeQ_findQ, writeQ_nextId, hd1, hnext]
  | some q =>
    obtain ⟨hu, hdq, hlt⟩ := hwf u d q hfind
    have hne : q.id ≠ s.nextId := Nat.ne_of_lt hlt
    by_cases hql : q.generationsLimit = tierLimit envL tier
    · refine ⟨?_, ?_, ?_, ?_⟩ <;>
        simp [getTodayQuota, hfind, hql, writeQ_findQ, writeQ_nextId, hd1, hnext, hne,
          Ne.symm hne]
    · refine ⟨?_, ?_, ?_, ?_⟩ <;>
        simp [getTodayQuota, hfind, hql, writeQ_findQ, writeQ_nextId, hd1, hnext, hu, hdq,
          hne, Ne.symm hne]

/-- Witness for C8 on the empty store. -/
theorem getTodayQuota_idempotent_rollover_witness :
    QuotaStoreWF emptyStore ∧
    (getTodayQuota ⟨none, none⟩ (getTodayQuota ⟨none, none⟩ emptyStore 3 0 .free).2 3 0 .free).1 =
      (getTodayQuota ⟨none, none⟩ emptyStore 3 0 .free).1 :=
  ⟨fun u d q h => by simp [emptyStore] at h,
    (getTodayQuota_idempotent_rollover ⟨none, none⟩ emptyStore 3 0 .free
      (fun u d q h => by simp [emptyStore] at h) rfl).1⟩

/-! ## Claim C9 (quota exceeded fails fast) -/

/-- C9: when today's quota record has generationsUsed at or above
generationsLimit, a validated image-to-image request for an existing user
answers QuotaExceeded (the 429 response), the provider is never called,
the quota store is untouched, and no Generation record is written. -/
theorem quota_exceeded_no_provider_call (env : RouteEnv) (req : GenRequest)
    (file : UploadedFile) (user : UserRec) (s : QuotaStore) (q : QuotaRec) (today now : Nat)
    (hprompt : strTrim req.prompt ≠ "") (hfile : req.file = some file)
    (hlen : req.prompt.length ≤ 1000) (hq : s.findQ user.uid today = some q)
    (hused : q.generationsUsed ≥ q.generationsLimit) :
    (imageToImageRoute env req (some user) s today now).response = .quotaExceeded ∧
    RouteEvent.providerCall ∉ (imageToImageRoute env req (some user) s today now).events ∧
    (imageToImageRoute env req (some user) s today now).store = s ∧
    (imageToImageRoute env req (some user) s today now).savedGeneration = none := by
  simp [imageToImageRoute, imageToImageAfterQuota, hprompt, hfile, hq, hused,
    Nat.not_lt.mpr hlen]

/-- Witness for C9: a free-tier user at used 5 of limit 5. -/
theorem quota_exceeded_no_provider_call_witness :
    (5 : Nat) ≥ 5 ∧
    (imageToImageRoute ⟨true, .ok "http://h/uploads/out.jpg", .notFound, false⟩
        ⟨"hi", none, some ⟨"f.jpg"⟩, "http://h"⟩ (some ⟨1, .free⟩)
        (writeQ { emptyStore with nextId := 1 }
          { id := 0, userId := 1, day := 0, generationsUsed := 5, generationsLimit := 5 })
        0 100).response = .quotaExceeded :=
  ⟨by decide,
    (quota_exceeded_no_provider_call
      ⟨true, .ok "http://h/uploads/out.jpg", .notFound, false⟩
      ⟨"hi", none, some ⟨"f.jpg"⟩, "http://h"⟩ ⟨"f.jpg"⟩ ⟨1, .free⟩
      (writeQ { emptyStore with nextId := 1 }
        { id := 0, userId := 1, day := 0, generationsUsed := 5, generationsLimit := 5 })
      { id := 0, userId := 1, day := 0, generationsUsed := 5, generationsLimit := 5 }
      0 100 (by decide) rfl (by decide) rfl (by decide)).1⟩

/-! ## Claim C10 (preset prompt resolution) -/

/-- C10: the preset template "make it look like {prompt} in the style,
ref: {image}" with raw prompt "sunset" and uploaded-image URL
"http://x/u.jpg" resolves to exactly "make it look like sunset in the
style, ref: http://x/u.jpg" — the image placeholder is replaced by the
URL, the prompt placeholder by the raw prompt, and no suffix is
appended. -/
theorem preset_template_resolution :
    (buildFinalPrompt "sunset" (some "style-ref")
        (.found { name := "Style Ref", category := "",
                  main_prompt := "make it look like {prompt} in the style, ref: {image}" })
        "http://x/u.jpg").1 =
      "make it look like sunset in the style, ref: http://x/u.jpg" := by
  decide

end VibraAI
